import Mathlib

/-!
Verification of the search microservice (src/search.py).

The repository is a FastAPI service with one piece of design content: the
fuzzy filter-and-truncate step of search_local_data (lines 101-105), which
scores each candidate's title against the query with rapidfuzz's
fuzz.partial_ratio and keeps those scoring at least the threshold, then
truncates to the first limit survivors.  We embed that step, the
source-selection guards of search_external_api / get_local_data, and the
response-shaping line of the two endpoints, and settle the frozen claims
against the embedding.
-/

namespace SearchService

/-- One local-data item: a record with a title used for matching; every
other field is opaque and passed through unchanged (modelled as an
association list of string pairs). -/
structure Candidate where
  title : String
  payload : List (String × String)
deriving DecidableEq, Repr

/-! ### Levenshtein distance and the partial-ratio scorer

Modelled from the spec: the scorer used at src/search.py line 103 is the
third-party rapidfuzz function fuzz.partial_ratio, whose code is not part
of this repository.  Spec section 4.1 prescribes its behaviour: if either
string is empty the score is 0; otherwise slide the shorter string S over
every window of the longer string L of length len(S), score each window by
the Levenshtein ratio 100 * (1 - dist / len(S)) rounded half-up, and
report the maximum over all windows. -/

/-- One step of the Wagner-Fischer dynamic program: given the row for the
prefix so far (ahead by one cell on the left), produce the tail of the next
row for character a against the remaining characters of the second string. -/
def levRowGo (a : Char) : List Char → List Nat → Nat → List Nat
  | [], _, _ => []
  | _ :: _, [], _ => []
  | _ :: _, [_], _ => []
  | b :: bs, p0 :: p1 :: ps, left =>
      let d := min (p1 + 1) (min (left + 1) (p0 + (if a = b then 0 else 1)))
      d :: levRowGo a bs (p1 :: ps) d

/-- The next full row of the Wagner-Fischer table for character a. -/
def levRow (a : Char) (t : List Char) (prev : List Nat) : List Nat :=
  let first := prev.headD 0 + 1
  first :: levRowGo a t prev first

/-- Levenshtein edit distance between two character lists, by the row-wise
dynamic program. -/
def lev (s t : List Char) : Nat :=
  (s.foldl (fun row a => levRow a t row) (List.range (t.length + 1))).getLastD 0

/-- All windows of l of length m, in order of their start position. -/
def windows (l : List Char) (m : Nat) : List (List Char) :=
  (List.range (l.length - m + 1)).map (fun i => (l.drop i).take m)

/-- Half-up rounded Levenshtein ratio 100 * (1 - d / m) of a window of
length m at edit distance d from the shorter string. -/
def window_ratio_score (m d : Nat) : Nat :=
  if m = 0 then 0 else (200 * (m - d) + m) / (2 * m)

/-- Best window score of the shorter string s against the longer string l. -/
def best_window_score (s l : List Char) : Nat :=
  ((windows l s.length).map (fun w => window_ratio_score s.length (lev s w))).foldl max 0

/-- Core of the partial-ratio scorer on character lists: 0 when either
string is empty, otherwise the best window score of the shorter against
the longer. -/
def partial_ratio_core (x y : List Char) : Nat :=
  match x with
  | [] => 0
  | _ :: _ =>
    match y with
    | [] => 0
    | _ :: _ =>
      if x.length ≤ y.length then best_window_score x y else best_window_score y x

/-- Modelled from the spec: rapidfuzz fuzz.partial_ratio (the scorer named
at src/search.py line 103), an integer similarity score in 0..100. -/
def partial_ratio_score (a b : String) : Nat :=
  partial_ratio_core a.data b.data

/-! ### The filter-and-truncate step of search_local_data -/

/-- The per-item test of the list comprehension at src/search.py lines
101-104: process.extractOne(query, [item.title], scorer=fuzz.partial_ratio)
over a one-element choice list returns that title with score
partial_ratio(query, title); the item is kept when the score is at least
fuzz_threshold. -/
def passes (query : String) (fuzz_threshold : Int) (item : Candidate) : Bool :=
  decide (fuzz_threshold ≤ (partial_ratio_score query item.title : Int))

/-- Python list slicing xs[:limit]: for limit >= 0 the first limit
elements; for limit < 0 all but the last |limit| elements (empty when
|limit| exceeds the length).  No limit value raises. -/
def pySliceTo {α : Type} (xs : List α) (limit : Int) : List α :=
  if 0 ≤ limit then xs.take limit.toNat
  else xs.take (xs.length - limit.natAbs)

/-- The body of search_local_data (src/search.py lines 97-105) applied to
the already-fetched local data: return [] when the data is empty (the
falsy-guard at line 98), otherwise keep the items whose fuzzy score meets
the threshold, in input order, and slice to [:limit]. -/
def search_local_data (local_data : List Candidate) (query : String)
    (fuzz_threshold : Int) (limit : Int) : List Candidate :=
  if local_data = [] then []
  else pySliceTo (local_data.filter (passes query fuzz_threshold)) limit

/-- Possible call outcomes of search_local_data, including the
InvalidArgument error outcome that the spec prescribes for malformed
threshold or limit.  The source performs no validation and contains no
raise statement on this path, so every call returns normally. -/
inductive FilterOutcome where
  | ok (items : List Candidate)
  | invalidArgument
deriving DecidableEq, Repr

/-- The call outcome of search_local_data: the source always returns the
filtered, sliced list normally; no argument value produces an error. -/
def search_local_data_outcome (local_data : List Candidate) (query : String)
    (fuzz_threshold : Int) (limit : Int) : FilterOutcome :=
  FilterOutcome.ok (search_local_data local_data query fuzz_threshold limit)

/-! ### Source-selection guards of the two fetch helpers -/

/-- External API source URL (src/search.py line 27): a single string, not
a dictionary. -/
def EXTERNAL_API : String := "https://openlibrary.org/search.json"

/-- Main program API endpoint URL (src/search.py line 30): a single
string, not a dictionary. -/
def MAIN_APP_API : String := "http://127.0.0.1:5001/get_data"

/-- Python's needle in haystack for strings: contiguous-substring
containment. -/
def strContains (haystack needle : String) : Bool :=
  (List.range (haystack.data.length + 1)).any
    (fun i => needle.data.isPrefixOf (haystack.data.drop i))

/-- Observable outcome of search_external_api / get_local_data:
emptyNoRequest is an immediate return of [] with no HTTP request issued;
typeError is the uncaught TypeError raised by indexing the URL string with
a string key (EXTERNAL_API[source] or MAIN_APP_API[source]) before
requests.get is ever called; fetch url would be a successful HTTP dispatch
to url, which no control path of the source can reach. -/
inductive ApiOutcome where
  | emptyNoRequest
  | typeError
  | fetch (url : String)
deriving DecidableEq, Repr

/-- search_external_api (src/search.py lines 33-60): the guard at line 45
tests source not in EXTERNAL_API, which is substring containment in a URL
string; when the guard fails, line 49 evaluates EXTERNAL_API[source],
indexing a str with a str key, which raises TypeError inside the try block
and is not caught (the except clause catches only RequestException). -/
def search_external_api (source : String) (_query : String) (_limit : Int) : ApiOutcome :=
  if strContains EXTERNAL_API source = false then ApiOutcome.emptyNoRequest
  else ApiOutcome.typeError

/-- get_local_data (src/search.py lines 63-81): same shape as
search_external_api; the guard at line 73 tests substring containment in
MAIN_APP_API and line 77 evaluates MAIN_APP_API[source], a str indexed by
a str, raising TypeError before any request. -/
def get_local_data (source : String) : ApiOutcome :=
  if strContains MAIN_APP_API source = false then ApiOutcome.emptyNoRequest
  else ApiOutcome.typeError

/-! ### Response shaping of the two endpoints -/

/-- JSON body shapes the endpoint return line can produce. -/
inductive SearchResponse where
  | results (items : List Candidate)
  | message (text : String)
deriving DecidableEq, Repr

/-- An HTTP response: status code and JSON body. -/
structure HttpResponse where
  status : Nat
  body : SearchResponse
deriving DecidableEq, Repr

/-- The shared return line of both endpoints (src/search.py lines 129 and
155): a truthiness test on the result list, returned by FastAPI with the
default status 200. -/
def respond_line (results : List Candidate) : HttpResponse :=
  if results = [] then { status := 200, body := SearchResponse.message "No results found." }
  else { status := 200, body := SearchResponse.results results }

/-- search_local_endpoint (src/search.py lines 132-155) given the
already-fetched local data: run the fuzzy search and shape the response. -/
def search_local_endpoint (local_data : List Candidate) (query : String)
    (fuzz_threshold : Int) (limit : Int) : HttpResponse :=
  respond_line (search_local_data local_data query fuzz_threshold limit)

/-- search_external_endpoint (src/search.py lines 108-129) given the list
produced by the underlying external search: shape the response. -/
def search_external_endpoint (results : List Candidate) : HttpResponse :=
  respond_line results

/-! ### Helper lemmas -/

/-- Slicing the empty list yields the empty list for every limit. -/
theorem pySliceTo_nil {α : Type} (l : Int) : pySliceTo ([] : List α) l = [] := by
  unfold pySliceTo
  split <;> simp

/-- For a non-negative limit, Python slicing is List.take. -/
theorem pySliceTo_nonneg {α : Type} (xs : List α) (l : Int) (h : 0 ≤ l) :
    pySliceTo xs l = xs.take l.toNat := by
  unfold pySliceTo
  rw [if_pos h]

/-- The empty-data guard of search_local_data is redundant: the function
always equals the filter followed by the slice. -/
theorem search_local_data_eq (C : List Candidate) (q : String) (t l : Int) :
    search_local_data C q t l = pySliceTo (C.filter (passes q t)) l := by
  unfold search_local_data
  split
  · rename_i h
    subst h
    rw [List.filter_nil, pySliceTo_nil]
  · rfl

/-- A fold of max stays below any bound dominating the seed and all
elements. -/
theorem foldl_max_le (l : List Nat) (a b : Nat) (ha : a ≤ b) (h : ∀ x ∈ l, x ≤ b) :
    l.foldl max a ≤ b := by
  induction l generalizing a with
  | nil => exact ha
  | cons x xs ih =>
      exact ih _ (max_le ha (h x (List.mem_cons_self x xs)))
        (fun y hy => h y (List.mem_cons_of_mem x hy))

/-- Every window ratio is at most 100. -/
theorem window_ratio_score_le (m d : Nat) : window_ratio_score m d ≤ 100 := by
  unfold window_ratio_score
  split
  · exact Nat.zero_le _
  · rename_i hm
    have h1 : 200 * (m - d) + m ≤ 201 * m := by
      have : m - d ≤ m := Nat.sub_le m d
      omega
    have h2 : (200 * (m - d) + m) / (2 * m) ≤ 201 * m / (2 * m) :=
      Nat.div_le_div_right h1
    have h3 : 201 * m / (2 * m) < 101 := by
      rw [Nat.div_lt_iff_lt_mul (by omega)]
      omega
    omega

/-- The best window score is at most 100. -/
theorem best_window_score_le (s l : List Char) : best_window_score s l ≤ 100 := by
  unfold best_window_score
  apply foldl_max_le _ _ _ (Nat.zero_le _)
  intro x hx
  obtain ⟨w, _, rfl⟩ := List.mem_map.mp hx
  exact window_ratio_score_le _ _

/-- The partial-ratio score never exceeds 100. -/
theorem partial_ratio_score_le (a b : String) : partial_ratio_score a b ≤ 100 := by
  unfold partial_ratio_score partial_ratio_core
  split
  · exact Nat.zero_le _
  · split
    · exact Nat.zero_le _
    · split
      · exact best_window_score_le _ _
      · exact best_window_score_le _ _

/-- An empty query scores 0 against every title. -/
theorem partial_ratio_empty_left (b : String) : partial_ratio_score "" b = 0 := rfl

/-! ### Claims -/

/-- Claim C1: for every candidate sequence, query, threshold and limit (a
limit being a non-negative integer per the data model), the output of the
filter-and-truncate step of search_local_data is an order-preserving
subsequence of the input candidate sequence, of length at most
min(limit, number of candidates whose partial-ratio score against the
query is at least the threshold); it is never reordered by score. -/
theorem claim_C1_order_preserving_bound (C : List Candidate) (q : String) (t l : Int)
    (hl : 0 ≤ l) :
    (search_local_data C q t l).Sublist C ∧
    (search_local_data C q t l).length ≤ min l.toNat (C.countP (passes q t)) := by
  rw [search_local_data_eq, pySliceTo_nonneg _ _ hl]
  constructor
  · exact (List.take_sublist _ _).trans (List.filter_sublist C)
  · rw [List.length_take, List.countP_eq_length_filter]

/-- Witness for C1 at a concrete input. -/
theorem claim_C1_witness :
    (search_local_data [⟨"a", []⟩] "a" 0 1).Sublist [⟨"a", []⟩] ∧
    (search_local_data [⟨"a", []⟩] "a" 0 1).length ≤
      min (Int.toNat 1) (List.countP (passes "a" 0) [⟨"a", []⟩]) :=
  claim_C1_order_preserving_bound [⟨"a", []⟩] "a" 0 1 (by decide)

/-- Claim C2 counterexample: calling search_local_data with threshold 101
does not signal InvalidArgument; it returns the empty result sequence
normally (the source performs no validation). -/
theorem claim_C2_counterexample :
    search_local_data_outcome [⟨"b", []⟩] "a" 101 5 = FilterOutcome.ok [] ∧
    search_local_data_outcome [⟨"b", []⟩] "a" 101 5 ≠ FilterOutcome.invalidArgument := by
  decide

/-- Claim C2 amended: for every candidate sequence, query and limit,
calling the filter with a threshold greater than 100 returns the empty
sequence normally (no score exceeds 100), rather than signalling an
InvalidArgument error. -/
theorem claim_C2_threshold_above_100_empty (C : List Candidate) (q : String) (t l : Int)
    (ht : 100 < t) :
    search_local_data_outcome C q t l = FilterOutcome.ok [] := by
  unfold search_local_data_outcome
  rw [search_local_data_eq]
  have hfil : C.filter (passes q t) = [] := by
    apply List.filter_eq_nil_iff.mpr
    intro a _
    simp only [passes, decide_eq_true_eq]
    intro hle
    have h100 : (partial_ratio_score q a.title : Int) ≤ 100 := by
      exact_mod_cast partial_ratio_score_le q a.title
    omega
  rw [hfil, pySliceTo_nil]

/-- Witness for the amended C2 at a concrete input. -/
theorem claim_C2_amended_witness :
    search_local_data_outcome [⟨"b", []⟩] "c" 101 5 = FilterOutcome.ok [] :=
  claim_C2_threshold_above_100_empty [⟨"b", []⟩] "c" 101 5 (by decide)

/-- Claim C3 counterexample: calling search_local_data with limit -1 does
not signal InvalidArgument; with two passing candidates it returns the
first of them (Python slice xs[:-1] drops the last element). -/
theorem claim_C3_counterexample :
    search_local_data_outcome [⟨"a", []⟩, ⟨"b", []⟩] "a" 0 (-1) =
      FilterOutcome.ok [⟨"a", []⟩] ∧
    search_local_data_outcome [⟨"a", []⟩, ⟨"b", []⟩] "a" 0 (-1) ≠
      FilterOutcome.invalidArgument := by
  decide

/-- Claim C3 amended: for every candidate sequence, query and threshold,
calling the filter with a negative limit returns the filtered sequence
with its last |limit| elements dropped (Python slice semantics of
filtered_data[:limit]), rather than signalling an InvalidArgument error. -/
theorem claim_C3_negative_limit_slice (C : List Candidate) (q : String) (t l : Int)
    (hl : l < 0) :
    search_local_data_outcome C q t l =
      FilterOutcome.ok ((C.filter (passes q t)).take
        ((C.filter (passes q t)).length - l.natAbs)) := by
  unfold search_local_data_outcome
  rw [search_local_data_eq]
  unfold pySliceTo
  rw [if_neg (not_le.mpr hl)]

/-- Witness for the amended C3 at a concrete input. -/
theorem claim_C3_amended_witness :
    search_local_data_outcome [⟨"a", []⟩, ⟨"b", []⟩] "b" 0 (-1) =
      FilterOutcome.ok ((([⟨"a", []⟩, ⟨"b", []⟩] : List Candidate).filter (passes "b" 0)).take
        ((([⟨"a", []⟩, ⟨"b", []⟩] : List Candidate).filter (passes "b" 0)).length -
          Int.natAbs (-1))) :=
  claim_C3_negative_limit_slice [⟨"a", []⟩, ⟨"b", []⟩] "b" 0 (-1) (by decide)

/-- Claim C4: for every non-empty candidate sequence whose candidates all
have non-empty titles, filtering with an empty query string and any
threshold at least 1 returns the empty sequence, because the partial-ratio
score of an empty query against every title is 0. -/
theorem claim_C4_empty_query_no_matches (C : List Candidate) (t l : Int)
    (hC : C ≠ []) (ht : 1 ≤ t) (htitles : ∀ c ∈ C, c.title ≠ "") :
    search_local_data C "" t l = [] := by
  rw [search_local_data_eq]
  have hfil : C.filter (passes "" t) = [] := by
    apply List.filter_eq_nil_iff.mpr
    intro a _
    simp only [passes, partial_ratio_empty_left, Nat.cast_zero, decide_eq_true_eq]
    omega
  rw [hfil, pySliceTo_nil]

/-- Witness for C4 at a concrete input. -/
theorem claim_C4_witness :
    search_local_data [⟨"x", []⟩] "" 1 5 = [] :=
  claim_C4_empty_query_no_matches [⟨"x", []⟩] 1 5 (by decide) (by decide) (by decide)

/-- Claim C5: for every candidate sequence C, every query, and every limit
at least the length of C, filtering with threshold 0 returns exactly C in
its original order (every score is non-negative, so nothing is discarded
or truncated). -/
theorem claim_C5_threshold_zero_identity (C : List Candidate) (q : String) (l : Int)
    (hl : (C.length : Int) ≤ l) :
    search_local_data C q 0 l = C := by
  rw [search_local_data_eq]
  have hfil : C.filter (passes q 0) = C := by
    apply List.filter_eq_self.mpr
    intro a _
    simp only [passes, decide_eq_true_eq]
    exact Int.natCast_nonneg _
  rw [hfil, pySliceTo_nonneg _ _ (le_trans (Int.natCast_nonneg _) hl)]
  exact List.take_of_length_le (by omega)

/-- Witness for C5 at a concrete input. -/
theorem claim_C5_witness :
    search_local_data [⟨"a", []⟩] "b" 0 1 = [⟨"a", []⟩] :=
  claim_C5_threshold_zero_identity [⟨"a", []⟩] "b" 1 (by decide)

/-- Claim C6: idempotence: for every candidate sequence, query, threshold
and limit (a limit being a non-negative integer per the data model),
applying the filter a second time to its own output with the same query,
threshold and limit returns that output unchanged. -/
theorem claim_C6_idempotent (C : List Candidate) (q : String) (t l : Int) (hl : 0 ≤ l) :
    search_local_data (search_local_data C q t l) q t l = search_local_data C q t l := by
  have h1 : search_local_data C q t l = (C.filter (passes q t)).take l.toNat := by
    rw [search_local_data_eq, pySliceTo_nonneg _ _ hl]
  have hmem : ∀ a ∈ search_local_data C q t l, passes q t a = true := by
    intro a ha
    rw [h1] at ha
    exact (List.mem_filter.mp ((List.take_sublist _ _).subset ha)).2
  have hlen : (search_local_data C q t l).length ≤ l.toNat := by
    rw [h1, List.length_take]
    exact Nat.min_le_left _ _
  rw [search_local_data_eq (search_local_data C q t l), pySliceTo_nonneg _ _ hl,
    List.filter_eq_self.mpr hmem]
  exact List.take_of_length_le hlen

/-- Witness for C6 at a concrete input. -/
theorem claim_C6_witness :
    search_local_data (search_local_data [⟨"a", []⟩] "a" 0 1) "a" 0 1 =
      search_local_data [⟨"a", []⟩] "a" 0 1 :=
  claim_C6_idempotent [⟨"a", []⟩] "a" 0 1 (by decide)

/-- Claim C7: for every candidate sequence, query and threshold, filtering
with limit 0 returns the empty sequence. -/
theorem claim_C7_limit_zero_empty (C : List Candidate) (q : String) (t : Int) :
    search_local_data C q t 0 = [] := by
  rw [search_local_data_eq, pySliceTo_nonneg _ _ le_rfl]
  rfl

/-- Claim C8: every response of the two search endpoints has HTTP status
200, and its body is the results object exactly when the underlying search
yields at least one item, else the fixed no-results message; no other
shapes occur. -/
theorem claim_C8_response_shape (C : List Candidate) (q : String) (t l : Int)
    (ext : List Candidate) :
    (search_local_endpoint C q t l).status = 200 ∧
    (search_external_endpoint ext).status = 200 ∧
    ((search_local_data C q t l ≠ [] ∧
        (search_local_endpoint C q t l).body =
          SearchResponse.results (search_local_data C q t l)) ∨
      (search_local_data C q t l = [] ∧
        (search_local_endpoint C q t l).body =
          SearchResponse.message "No results found.")) ∧
    ((ext ≠ [] ∧ (search_external_endpoint ext).body = SearchResponse.results ext) ∨
      (ext = [] ∧ (search_external_endpoint ext).body =
        SearchResponse.message "No results found.")) := by
  unfold search_local_endpoint search_external_endpoint respond_line
  refine ⟨?_, ?_, ?_, ?_⟩
  · split <;> rfl
  · split <;> rfl
  · by_cases h : search_local_data C q t l = []
    · right
      exact ⟨h, by rw [if_pos h]⟩
    · left
      exact ⟨h, by rw [if_neg h]⟩
  · by_cases h : ext = []
    · right
      exact ⟨h, by rw [if_pos h]⟩
    · left
      exact ⟨h, by rw [if_neg h]⟩

/-- Claim C9: the source-selection check of search_external_api and
get_local_data is substring containment against a single URL string: for
every source string that is not a substring of the configured endpoint
URL, the function returns the empty list immediately, without performing
any HTTP request. -/
theorem claim_C9_source_guard_substring (source : String) (q : String) (l : Int) :
    (strContains EXTERNAL_API source = false →
      search_external_api source q l = ApiOutcome.emptyNoRequest) ∧
    (strContains MAIN_APP_API source = false →
      get_local_data source = ApiOutcome.emptyNoRequest) := by
  unfold search_external_api get_local_data
  constructor
  · intro h
    rw [h]
    rfl
  · intro h
    rw [h]
    rfl

/-- Witness for C9: get_data is not a substring of the external URL and
search is not a substring of the local URL, so each helper returns the
empty list with no request for the respective source value. -/
theorem claim_C9_witness :
    search_external_api "get_data" "x" 5 = ApiOutcome.emptyNoRequest ∧
    get_local_data "search" = ApiOutcome.emptyNoRequest :=
  ⟨(claim_C9_source_guard_substring "get_data" "x" 5).1 (by decide),
    (claim_C9_source_guard_substring "search" "x" 5).2 (by decide)⟩

/-- Claim C10 (implicit): for every source string that is a substring of
the configured endpoint URL, the dispatch expression indexes a string
constant with a string key, a type error; hence no source value can ever
produce a successful fetch from either helper. -/
theorem claim_C10_dispatch_type_error (source : String) (q : String) (l : Int) :
    (strContains EXTERNAL_API source = true →
      search_external_api source q l = ApiOutcome.typeError) ∧
    (strContains MAIN_APP_API source = true →
      get_local_data source = ApiOutcome.typeError) ∧
    (∀ u, search_external_api source q l ≠ ApiOutcome.fetch u) ∧
    (∀ u, get_local_data source ≠ ApiOutcome.fetch u) := by
  unfold search_external_api get_local_data
  refine ⟨?_, ?_, ?_, ?_⟩
  · intro h
    rw [h]
    rfl
  · intro h
    rw [h]
    rfl
  · intro u
    split <;> simp
  · intro u
    split <;> simp

/-- Witness for C10: search is a substring of the external URL and data of
the local URL; both dispatches hit the string-indexing type error. -/
theorem claim_C10_witness :
    search_external_api "search" "x" 5 = ApiOutcome.typeError ∧
    get_local_data "data" = ApiOutcome.typeError :=
  ⟨(claim_C10_dispatch_type_error "search" "x" 5).1 (by decide),
    (claim_C10_dispatch_type_error "data" "x" 5).2.1 (by decide)⟩

end SearchService
